import Mathlib

/-!
Verification of the Bling NFe fetch-and-compare program (src/ObterUN.py).

The Python source is shallowly embedded: decoded JSON values, the subset
of Python exception behaviour the program exercises, the int() string
parser, the 0-padded decimal format, the HTTP fetch boundary as a pure
function of an abstract transport outcome, the two-way concurrent fetch
as a function of an abstract completion order, and the main control flow
as a function of the values the external auth provider returns.
-/

set_option autoImplicit false

/-- Decoded JSON values, as produced by response.json(). Numbers are
modelled as integers, which covers every value the program manipulates. -/
inductive Json where
  | null : Json
  | bool : Bool → Json
  | num : Int → Json
  | str : String → Json
  | arr : List Json → Json
  | obj : List (String × Json) → Json

/-- The Python exception classes the program raises or catches. -/
inductive PyExn where
  | requestException
  | jsonDecodeError
  | valueError
  | typeError
  | attributeError
  | keyError
  | indexError
deriving DecidableEq

/-- Python truthiness of a decoded JSON value. -/
def Json.truthy : Json → Bool
  | .null => false
  | .bool b => b
  | .num n => n != 0
  | .str s => s != ""
  | .arr xs => !xs.isEmpty
  | .obj kvs => !kvs.isEmpty

/-- Truthiness of a Python optional value: None is falsy, a present
value has the truthiness of the value itself. -/
def optTruthy : Option Json → Bool
  | none => false
  | some v => v.truthy

/-- The whitespace characters int() strips around a numeric literal. -/
def isPySpace (c : Char) : Bool :=
  c == ' ' || c == '\t' || c == '\n' || c == '\r' || c == '\x0b' || c == '\x0c'

/-- Tail of a decimal literal after its first digit: plain digits, with
single underscores allowed only between digits, as int() accepts. -/
def digitsVal : List Char → Nat → Option Nat
  | [], acc => some acc
  | '_' :: c :: rest, acc =>
      if c.isDigit then digitsVal rest (acc * 10 + (c.toNat - '0'.toNat)) else none
  | ['_'], _ => none
  | c :: rest, acc =>
      if c.isDigit then digitsVal rest (acc * 10 + (c.toNat - '0'.toNat)) else none

/-- Digit run of a decimal literal: at least one digit, then digitsVal. -/
def parseDigitsU : List Char → Option Nat
  | [] => none
  | c :: rest => if c.isDigit then digitsVal rest (c.toNat - '0'.toNat) else none

/-- Python int() applied to a string: optional surrounding whitespace,
an optional single sign, then a digit run possibly containing underscore
separators. Returns none exactly where int() raises ValueError. -/
def pyIntOfString (s : String) : Option Int :=
  let cs := ((s.data.dropWhile isPySpace).reverse.dropWhile isPySpace).reverse
  match cs with
  | '+' :: rest => (parseDigitsU rest).map Int.ofNat
  | '-' :: rest => (parseDigitsU rest).map (fun n => -(n : Int))
  | other => (parseDigitsU other).map Int.ofNat

/-- Zero padding of the 0wd format: zeros are inserted between the sign
and the digits up to the requested total width. -/
def pyPad0 (width : Nat) (sign digits : String) : String :=
  if sign.length + digits.length < width then
    sign ++ String.mk (List.replicate (width - (sign.length + digits.length)) '0') ++ digits
  else sign ++ digits

/-- The Python format operation m:0wd on an integer m. -/
def pyFormatD (width : Nat) (m : Int) : String :=
  pyPad0 width (if m < 0 then "-" else "") (toString m.natAbs)

/-- Configuration constant Config.API_BASE_URL. -/
def Config.API_BASE_URL : String := "https://api.bling.com.br/Api/v3"

/-- Configuration constant Config.MAX_WORKERS. -/
def Config.MAX_WORKERS : Nat := 2

/-- Configuration constant Config.NFE_DIGITS. -/
def Config.NFE_DIGITS : Nat := 6

/-- Python int() applied to a value: strings are parsed with ValueError
on failure, integers pass through, booleans become 0 or 1, and the other
types raise TypeError. -/
def pyInt : Json → Except PyExn Int
  | .str s =>
      match pyIntOfString s with
      | some n => .ok n
      | none => .error .valueError
  | .num n => .ok n
  | .bool b => .ok (if b then 1 else 0)
  | .null => .error .typeError
  | .arr _ => .error .typeError
  | .obj _ => .error .typeError

/-- NFEProcessor.compare_nfe_numbers: returns None unless both operands
are present and truthy, applies int() to each in order catching only
ValueError, and formats the maximum 0-padded to Config.NFE_DIGITS. -/
def compare_nfe_numbers (numero_entrada numero_saida : Option Json) :
    Except PyExn (Option String) :=
  match numero_entrada, numero_saida with
  | some a, some b =>
    if a.truthy && b.truthy then
      match pyInt a with
      | .error .valueError => .ok none
      | .error e => .error e
      | .ok entrada_int =>
        match pyInt b with
        | .error .valueError => .ok none
        | .error e => .error e
        | .ok saida_int =>
            .ok (some (pyFormatD Config.NFE_DIGITS (max entrada_int saida_int)))
    else .ok none
  | _, _ => .ok none

/-- A string that int() parses successfully is not the empty string. -/
theorem pyIntOfString_ne_empty {s : String} {x : Int}
    (h : pyIntOfString s = some x) : s ≠ "" := by
  intro hs
  subst hs
  rw [show pyIntOfString "" = none from by decide] at h
  exact Option.noConfusion h

/-- Reduction of compare_nfe_numbers on two present strings that both
parse: the padded maximum is returned. -/
theorem compare_nfe_numbers_parsed (a b : String) (x y : Int)
    (ha : pyIntOfString a = some x) (hb : pyIntOfString b = some y) :
    compare_nfe_numbers (some (.str a)) (some (.str b)) =
      .ok (some (pyFormatD Config.NFE_DIGITS (max x y))) := by
  have ta : (a != "") = true := by
    simp only [bne_iff_ne, ne_eq]
    exact pyIntOfString_ne_empty ha
  have tb : (b != "") = true := by
    simp only [bne_iff_ne, ne_eq]
    exact pyIntOfString_ne_empty hb
  simp only [compare_nfe_numbers, Json.truthy, ta, tb, Bool.and_self, if_true, pyInt, ha, hb]

/-- Modelled from the spec: a decimal string left-padded with zeros to
the configured width. -/
def spec_leftPadZeros (width : Nat) (s : String) : String :=
  if s.length < width then String.mk (List.replicate (width - s.length) '0') ++ s else s

/-- Appending to the empty string is the identity. -/
theorem empty_append_str (s : String) : "" ++ s = s := rfl

/-- Padding with an empty sign is exactly the left zero-padding the
spec describes. -/
theorem pyPad0_empty_sign (w : Nat) (d : String) :
    pyPad0 w "" d = spec_leftPadZeros w d := by
  simp [pyPad0, spec_leftPadZeros, empty_append_str]

/-- On non-negative integers the 0wd format is the spec's zero padding
of the decimal representation. -/
theorem pyFormatD_nonneg (w : Nat) (m : Int) (h : 0 ≤ m) :
    pyFormatD w m = spec_leftPadZeros w (toString m.toNat) := by
  have h1 : ¬ m < 0 := not_lt.mpr h
  have h2 : m.natAbs = m.toNat := by omega
  rw [pyFormatD, if_neg h1, h2, pyPad0_empty_sign]

/-- Claim C1: for present inputs that both parse as (non-negative)
integers, compare_nfe_numbers returns the decimal string of the numeric
maximum left-padded with zeros to the configured width 6; in particular
on "5" and "10" it returns "000010". -/
theorem claim_C1 :
    (∀ (a b : String) (x y : Int), pyIntOfString a = some x →
        pyIntOfString b = some y → 0 ≤ x → 0 ≤ y →
        compare_nfe_numbers (some (.str a)) (some (.str b)) =
          .ok (some (spec_leftPadZeros 6 (toString (max x y).toNat)))) ∧
    compare_nfe_numbers (some (.str "5")) (some (.str "10")) = .ok (some "000010") := by
  refine ⟨?_, rfl⟩
  intro a b x y ha hb hx hy
  rw [compare_nfe_numbers_parsed a b x y ha hb]
  rw [show Config.NFE_DIGITS = 6 from rfl]
  rw [pyFormatD_nonneg 6 (max x y) (le_trans hx (le_max_left x y))]

/-- Witness for claim C1 at the concrete pair "12" and "7". -/
theorem claim_C1_witness :
    compare_nfe_numbers (some (.str "12")) (some (.str "7")) =
      .ok (some (spec_leftPadZeros 6 (toString (max (12 : Int) 7).toNat))) :=
  claim_C1.1 "12" "7" 12 7 (by decide) (by decide) (by decide) (by decide)

/-- Claim C3: compare_nfe_numbers returns absence when either operand is
absent, for every value of the other operand. -/
theorem claim_C3 (x : Option Json) :
    compare_nfe_numbers none x = .ok none ∧
    compare_nfe_numbers x none = .ok none := by
  cases x <;> exact ⟨rfl, rfl⟩

/-- Claim C4: on two present strings, if either fails to parse with
int(), compare_nfe_numbers returns absence without raising. -/
theorem claim_C4 (a b : String)
    (h : pyIntOfString a = none ∨ pyIntOfString b = none) :
    compare_nfe_numbers (some (.str a)) (some (.str b)) = .ok none := by
  by_cases ha : a = ""
  · subst ha
    rfl
  · by_cases hb : b = ""
    · subst hb
      simp [compare_nfe_numbers, Json.truthy]
    · have ta : (a != "") = true := by
        simp only [bne_iff_ne, ne_eq]
        exact ha
      have tb : (b != "") = true := by
        simp only [bne_iff_ne, ne_eq]
        exact hb
      rcases h with h | h
      · simp [compare_nfe_numbers, Json.truthy, ta, tb, pyInt, h]
      · cases hx : pyIntOfString a with
        | none => simp [compare_nfe_numbers, Json.truthy, ta, tb, pyInt, hx]
        | some x => simp [compare_nfe_numbers, Json.truthy, ta, tb, pyInt, hx, h]

/-- Witness for claim C4 at the concrete pair "abc" and "10". -/
theorem claim_C4_witness :
    compare_nfe_numbers (some (.str "abc")) (some (.str "10")) = .ok none :=
  claim_C4 "abc" "10" (Or.inl (by decide))

/-- Natural decimal representation of an integer: sign then digits. -/
def decRep (m : Int) : String := (if m < 0 then "-" else "") ++ toString m.natAbs

/-- When the decimal representation is at least as wide as the requested
width, the 0wd format emits it unchanged. -/
theorem pyFormatD_wide (w : Nat) (m : Int) (h : w ≤ (decRep m).length) :
    pyFormatD w m = decRep m := by
  have hlen : (decRep m).length =
      (if m < 0 then "-" else "").length + (toString m.natAbs).length := by
    rw [decRep, String.length_append]
  rw [pyFormatD, pyPad0, if_neg (by omega), decRep]

/-- Claim C5: for present parsing inputs whose maximum has a decimal
representation longer than the configured width 6, compare_nfe_numbers
returns the full representation unpadded and untruncated. -/
theorem claim_C5 (a b : String) (x y : Int)
    (ha : pyIntOfString a = some x) (hb : pyIntOfString b = some y)
    (hlen : 6 < (decRep (max x y)).length) :
    compare_nfe_numbers (some (.str a)) (some (.str b)) =
      .ok (some (decRep (max x y))) := by
  rw [compare_nfe_numbers_parsed a b x y ha hb]
  rw [show Config.NFE_DIGITS = 6 from rfl, pyFormatD_wide 6 (max x y) (le_of_lt hlen)]

/-- Witness for claim C5 at the concrete pair "1234567" and "5". -/
theorem claim_C5_witness :
    compare_nfe_numbers (some (.str "1234567")) (some (.str "5")) =
      .ok (some (decRep (max (1234567 : Int) 5))) :=
  claim_C5 "1234567" "5" 1234567 5 (by decide) (by decide) (by decide)

/-- Claim C9: compare_nfe_numbers treats the present empty string like
absence, because the presence check is a truthiness test. -/
theorem claim_C9 (x : Option Json) :
    compare_nfe_numbers (some (.str "")) x = .ok none ∧
    compare_nfe_numbers x (some (.str "")) = .ok none := by
  cases x with
  | none => exact ⟨rfl, rfl⟩
  | some v =>
    refine ⟨rfl, ?_⟩
    simp [compare_nfe_numbers, Json.truthy]

/-- Claim C10: compare_nfe_numbers accepts every string int() parses,
including whitespace, an explicit sign and underscore separators, and
for negative inputs the sign sits inside the padded width. -/
theorem claim_C10 :
    (∀ (a b : String) (x y : Int), pyIntOfString a = some x →
        pyIntOfString b = some y →
        compare_nfe_numbers (some (.str a)) (some (.str b)) =
          .ok (some (pyFormatD 6 (max x y)))) ∧
    compare_nfe_numbers (some (.str " +1_0 ")) (some (.str "9")) = .ok (some "000010") ∧
    compare_nfe_numbers (some (.str "-3")) (some (.str "-7")) = .ok (some "-00003") := by
  refine ⟨?_, rfl, rfl⟩
  intro a b x y ha hb
  exact compare_nfe_numbers_parsed a b x y ha hb

/-- Witness for claim C10 at the concrete pair "8" and "11". -/
theorem claim_C10_witness :
    compare_nfe_numbers (some (.str "8")) (some (.str "11")) =
      .ok (some (pyFormatD 6 (max (8 : Int) 11))) :=
  claim_C10.1 "8" "11" 8 11 (by decide) (by decide)

/-- The NFeTipo enumeration: the two invoice categories. -/
inductive NFeTipo where
  | ENTRADA
  | SAIDA
deriving DecidableEq

/-- Wire-level discriminator of each category (the enum value). -/
def NFeTipo.value : NFeTipo → Nat
  | .ENTRADA => 0
  | .SAIDA => 1

/-- An HTTP request as assembled by get_nfe_info: URL, the three query
parameters, and the headers built by the client constructor. -/
structure Request where
  url : String
  pagina : Nat
  limite : Nat
  tipo : Nat
  headers : List (String × String)

/-- Outcome of requests.get: either a raised RequestException, or a
response carrying a status code and a body that may fail to decode as
JSON (none models a JSON decode failure in response.json()). -/
inductive HttpResult where
  | exn : HttpResult
  | resp : Nat → Option Json → HttpResult

/-- First value bound to a key in a decoded JSON object. -/
def lookupKey (kvs : List (String × Json)) (k : String) : Option Json :=
  (kvs.find? (fun p => p.1 == k)).map Prod.snd

/-- The dict.get method as the program applies it: key lookup on an
object, AttributeError on every other value. -/
def Json.getKey : Json → String → Except PyExn (Option Json)
  | .obj kvs, k => .ok (lookupKey kvs k)
  | _, _ => .error .attributeError

/-- The subscript v[0] as the program applies it to the data field:
first element of a sequence, KeyError on an object (integer key lookup
in a string-keyed dict), TypeError on the remaining values. -/
def Json.index0 : Json → Except PyExn Json
  | .arr [] => .error .indexError
  | .arr (x :: _) => .ok x
  | .str s =>
      match s.data with
      | [] => .error .indexError
      | c :: _ => .ok (.str (String.mk [c]))
  | .obj _ => .error .keyError
  | _ => .error .typeError

/-- Headers built by BlingNFeClient for a given access token. -/
def clientHeaders (access_token : String) : List (String × String) :=
  [("Accept", "application/json"), ("Authorization", "Bearer " ++ access_token)]

/-- The request get_nfe_info sends for a category: page 1, limit 1, the
category discriminator, against API_BASE_URL/nfe. -/
def nfeRequest (access_token : String) (tipo : NFeTipo) : Request :=
  { url := Config.API_BASE_URL ++ "/nfe"
    pagina := 1
    limite := 1
    tipo := tipo.value
    headers := clientHeaders access_token }

/-- Body of get_nfe_info once requests.get has returned:
raise_for_status (HTTPError for statuses 400 to 599), response.json(),
then extraction of the first record and its numero field, with a null
numero surfacing as Python None. RequestException and JSONDecodeError
are caught and become None; every other exception escapes. -/
def processResponse (r : HttpResult) : Except PyExn (Option Json) :=
  match r with
  | .exn => .ok none
  | .resp status body =>
    if 400 ≤ status ∧ status < 600 then .ok none
    else
      match body with
      | none => .ok none
      | some response_data =>
        match response_data.getKey "data" with
        | .error e => .error e
        | .ok dataOpt =>
          match dataOpt with
          | none => .ok none
          | some dv =>
            if dv.truthy then
              match dv.index0 with
              | .error e => .error e
              | .ok record =>
                match record.getKey "numero" with
                | .error e => .error e
                | .ok numero =>
                    .ok (match numero with
                         | some .null => none
                         | other => other)
            else .ok none

/-- BlingNFeClient.get_nfe_info as a function of the transport,
abstracted as an oracle mapping the issued request to its outcome; the
second component is the list of requests the call issues. -/
def get_nfe_info (access_token : String) (tipo : NFeTipo)
    (transport : Request → HttpResult) :
    Except PyExn (Option Json) × List Request :=
  (processResponse (transport (nfeRequest access_token tipo)),
   [nfeRequest access_token tipo])

/-- Claim C2 fails on the code: a 200 response whose body decodes to a
JSON array makes the data lookup raise an escaping AttributeError, and a
301 response with a well-formed envelope yields a value, not absence. -/
theorem claim_C2_counterexample :
    (get_nfe_info "token" .ENTRADA
        (fun _ => .resp 200 (some (.arr [])))).1 = .error .attributeError ∧
    (get_nfe_info "token" .SAIDA
        (fun _ => .resp 301 (some (.obj
          [("data", .arr [.obj [("numero", .str "42")]])])))).1 =
      .ok (some (.str "42")) := by
  exact ⟨rfl, rfl⟩

/-- Claim C2 amended: get_nfe_info returns absence without raising on a
transport failure, on any status from 400 to 599, on a body that fails
to decode as JSON, and on a decoded object envelope whose data field is
missing or falsy (the empty record list included). -/
theorem claim_C2_amended (access_token : String) (tipo : NFeTipo)
    (transport : Request → HttpResult)
    (h : transport (nfeRequest access_token tipo) = .exn ∨
         (∃ s body, transport (nfeRequest access_token tipo) = .resp s body ∧
            400 ≤ s ∧ s < 600) ∨
         (∃ s, transport (nfeRequest access_token tipo) = .resp s none) ∨
         (∃ s kvs, transport (nfeRequest access_token tipo) =
              .resp s (some (.obj kvs)) ∧
            optTruthy (lookupKey kvs "data") = false)) :
    (get_nfe_info access_token tipo transport).1 = .ok none := by
  rcases h with h | ⟨s, body, h, hs⟩ | ⟨s, h⟩ | ⟨s, kvs, h, hd⟩
  · simp [get_nfe_info, h, processResponse]
  · simp [get_nfe_info, h, processResponse, hs.1, hs.2]
  · simp only [get_nfe_info, h, processResponse]
    split
    · rfl
    · rfl
  · simp only [get_nfe_info, h, processResponse]
    split
    · rfl
    · simp only [Json.getKey]
      cases hk : lookupKey kvs "data" with
      | none => rfl
      | some dv =>
          rw [hk] at hd
          simp only [optTruthy] at hd
          simp [hd]

/-- Witness for the amended claim C2 at a concrete transport failure. -/
theorem claim_C2_amended_witness :
    (get_nfe_info "token" .ENTRADA (fun _ => HttpResult.exn)).1 = .ok none :=
  claim_C2_amended "token" .ENTRADA (fun _ => HttpResult.exn) (Or.inl rfl)

/-- Claim C7: each fetch issues exactly one GET request to
API_BASE_URL/nfe with pagina 1, limite 1, tipo 0 for ENTRADA and 1 for
SAIDA, and the Accept and bearer Authorization headers. -/
theorem claim_C7 (access_token : String) (transport : Request → HttpResult) :
    (get_nfe_info access_token .ENTRADA transport).2 =
      [{ url := "https://api.bling.com.br/Api/v3/nfe"
         pagina := 1
         limite := 1
         tipo := 0
         headers := [("Accept", "application/json"),
                     ("Authorization", "Bearer " ++ access_token)] }] ∧
    (get_nfe_info access_token .SAIDA transport).2 =
      [{ url := "https://api.bling.com.br/Api/v3/nfe"
         pagina := 1
         limite := 1
         tipo := 1
         headers := [("Accept", "application/json"),
                     ("Authorization", "Bearer " ++ access_token)] }] := by
  exact ⟨rfl, rfl⟩

/-- Order in which the two concurrent fetch tasks complete: the model's
stand-in for the scheduler nondeterminism of the thread pool. -/
inductive CompletionOrder where
  | entradaFirst
  | saidaFirst

/-- The per-future result store after both tasks have completed. A
future holds the result of its own task whichever task finished first;
the order only decides which result was stored earlier. -/
def futureStore (order : CompletionOrder)
    (rEntrada rSaida : Except PyExn (Option Json)) :
    NFeTipo → Except PyExn (Option Json) :=
  match order with
  | .entradaFirst => fun t =>
      match t with
      | .ENTRADA => rEntrada
      | .SAIDA => rSaida
  | .saidaFirst => fun t =>
      match t with
      | .SAIDA => rSaida
      | .ENTRADA => rEntrada

/-- BlingNFeClient.get_multiple_nfe_info: submits the ENTRADA and SAIDA
fetches, waits for both, and reads each result from its own future,
entrada first; Future.result re-raises a stored exception. The wire
trace lists the issued requests in completion order. -/
def get_multiple_nfe_info (access_token : String)
    (transport : Request → HttpResult) (order : CompletionOrder) :
    Except PyExn (Option Json × Option Json) × List Request :=
  let fetchE := get_nfe_info access_token .ENTRADA transport
  let fetchS := get_nfe_info access_token .SAIDA transport
  let store := futureStore order fetchE.1 fetchS.1
  let trace :=
    match order with
    | .entradaFirst => fetchE.2 ++ fetchS.2
    | .saidaFirst => fetchS.2 ++ fetchE.2
  (match store .ENTRADA with
   | .error e => .error e
   | .ok a =>
     match store .SAIDA with
     | .error e => .error e
     | .ok b => .ok (a, b),
   trace)

/-- Claim C6: the pair returned by get_multiple_nfe_info does not depend
on which task completes first, and its components are positioned as
(ENTRADA result, SAIDA result). -/
theorem claim_C6 (access_token : String) (transport : Request → HttpResult)
    (o o' : CompletionOrder) :
    (get_multiple_nfe_info access_token transport o).1 =
      (get_multiple_nfe_info access_token transport o').1 ∧
    (∀ vE vS, (get_nfe_info access_token .ENTRADA transport).1 = .ok vE →
      (get_nfe_info access_token .SAIDA transport).1 = .ok vS →
      (get_multiple_nfe_info access_token transport o).1 = .ok (vE, vS)) := by
  constructor
  · cases o <;> cases o' <;> rfl
  · intro vE vS hE hS
    cases o <;> simp [get_multiple_nfe_info, futureStore, hE, hS]

/-- Witness for claim C6: with a failing transport both categories
resolve to absence and the pair is (none, none) even when the SAIDA
task completes first. -/
theorem claim_C6_witness :
    (get_multiple_nfe_info "token" (fun _ => HttpResult.exn) .saidaFirst).1 =
      .ok (none, none) :=
  (claim_C6 "token" (fun _ => HttpResult.exn) .saidaFirst .entradaFirst).2
    none none rfl rfl

mutual

/-- Python repr of a decoded JSON value, used by str() on containers. -/
def pyRepr : Json → String
  | .null => "None"
  | .bool true => "True"
  | .bool false => "False"
  | .num n => toString n
  | .str s => "\x27" ++ s ++ "\x27"
  | .arr xs => "[" ++ String.intercalate ", " (pyReprList xs) ++ "]"
  | .obj kvs => "\x7b" ++ String.intercalate ", " (pyReprPairs kvs) ++ "\x7d"

/-- Python reprs of the elements of a list. -/
def pyReprList : List Json → List String
  | [] => []
  | x :: xs => pyRepr x :: pyReprList xs

/-- Python reprs of the entries of a string-keyed dict. -/
def pyReprPairs : List (String × Json) → List String
  | [] => []
  | (k, v) :: kvs => ("\x27" ++ k ++ "\x27: " ++ pyRepr v) :: pyReprPairs kvs

end

/-- Python str() of a decoded JSON value, as an f-string interpolates
it: a string passes through, other values use their repr. -/
def pyStr : Json → String
  | .str s => s
  | v => pyRepr v

/-- Outcome of a run of main: either the generic failure message of the
top-level except block, or a completed run with its comparison result. -/
inductive MainOutcome where
  | fatalError : MainOutcome
  | result : Option String → MainOutcome

/-- Observable trace of a run of main: the HTTP requests issued,
whether the NFe client was invoked at all, and the final outcome. -/
structure RunTrace where
  requests : List Request
  fetched : Bool
  outcome : MainOutcome

/-- The main function (mainRun, since Lean reserves the name main),
parameterised by what the external auth provider
returns (the authorization code and the token structure), the transport
and the completion order. A falsy authorization code or a falsy access
token raises ValueError, a token structure that is absent or not a dict
raises AttributeError at the access_token lookup, and the surrounding
try block converts every escaping exception into the generic failure
message, fetches included. -/
def mainRun (auth_code : Option String) (token_info : Option Json)
    (transport : Request → HttpResult) (order : CompletionOrder) : RunTrace :=
  match auth_code with
  | none => ⟨[], false, .fatalError⟩
  | some code =>
    if code = "" then ⟨[], false, .fatalError⟩
    else
      match token_info with
      | none => ⟨[], false, .fatalError⟩
      | some ti =>
        match ti with
        | .obj kvs =>
          match lookupKey kvs "access_token" with
          | none => ⟨[], false, .fatalError⟩
          | some v =>
            if v.truthy then
              let run := get_multiple_nfe_info (pyStr v) transport order
              match run.1 with
              | .error _ => ⟨run.2, true, .fatalError⟩
              | .ok (numero_entrada, numero_saida) =>
                match compare_nfe_numbers numero_entrada numero_saida with
                | .error _ => ⟨run.2, true, .fatalError⟩
                | .ok r => ⟨run.2, true, .result r⟩
            else ⟨[], false, .fatalError⟩
        | _ => ⟨[], false, .fatalError⟩

/-- Claim C8: when the authorization code is absent, or the token
structure is absent or lacks an access_token entry, the run aborts with
the failure message before any fetch: no client call and no HTTP
request happens in that run. -/
theorem claim_C8 (auth_code : Option String) (token_info : Option Json)
    (transport : Request → HttpResult) (order : CompletionOrder)
    (h : auth_code = none ∨ token_info = none ∨
         (∃ kvs, token_info = some (.obj kvs) ∧
            lookupKey kvs "access_token" = none)) :
    mainRun auth_code token_info transport order = ⟨[], false, .fatalError⟩ := by
  rcases h with h | h | ⟨kvs, h, hk⟩
  · rw [h, mainRun]
  · rw [h]
    cases auth_code with
    | none => rw [mainRun]
    | some code =>
        rw [mainRun]
        split <;> rfl
  · rw [h]
    cases auth_code with
    | none => rw [mainRun]
    | some code =>
        rw [mainRun]
        split
        · rfl
        · simp [hk]

/-- Witness for claim C8: with no authorization code nothing is fetched
and the run fails. -/
theorem claim_C8_witness :
    mainRun none none (fun _ => HttpResult.exn) .entradaFirst =
      ⟨[], false, .fatalError⟩ :=
  claim_C8 none none (fun _ => HttpResult.exn) .entradaFirst (Or.inl rfl)
